import Mathlib

/-!
Verification development for the Census dashboard `src/app.py`.

The model covers the data acquisition-and-normalization pipeline:

* `make_census_request` — the retry loop of lines 87-107, parametrized by
  the per-attempt network outcome;
* `processCensus` — the pandas processing block of lines 128-151
  (DataFrame construction, `pd.to_numeric` coercion, column renaming,
  `dropna`, the five derived percentage columns, `sort_values`);
* `load_census_data` — lines 109-155, the guard for absent/short payloads
  and the exception handler around the processing block;
* `cachedLoad` — the `@st.cache_data(ttl=3600)` memoization of
  `load_census_data`'s return value.

Numbers are modelled exactly: a pandas float64 column value is either the
missing marker NaN, a finite value (an unreduced fraction of integers,
kept with a positive denominator), or an infinity, mirroring IEEE results
of the arithmetic the code performs.  `round(x, 2)` is rounding half to
even at two decimals, as numpy applies it.
-/

/-- An exact finite numeric value: the fraction `num / den`.  All values
built by the model keep `0 < den`; the representation is not reduced. -/
structure Frac where
  num : ℤ
  den : ℤ
deriving DecidableEq, Repr

/-- The rational value of a `Frac`. -/
def Frac.toRat (f : Frac) : ℚ := (f.num : ℚ) / (f.den : ℚ)

/-- A raw JSON cell of the Census payload: a string, or JSON null. -/
abbrev RawCell := Option String

/-- Value of a pandas float64 cell: NaN (the missing marker produced by
`pd.to_numeric(errors="coerce")` and by `0/0`), a finite value, or an
infinity produced by division by zero. -/
inductive NumV where
  | nan
  | real (f : Frac)
  | posInf
  | negInf
deriving DecidableEq, Repr

/-- A DataFrame cell: an object (string-or-null) cell, or a numeric cell
of a column that went through `pd.to_numeric`. -/
inductive Cell where
  | obj (s : Option String)
  | num (v : NumV)
deriving DecidableEq, Repr

/-- Default cell used for out-of-range positional access. -/
def cdef : Cell := Cell.obj none

/-- Whether a cell counts as missing for pandas (`NaN`/`None`).
Infinities are not missing. -/
def Cell.isNA : Cell → Bool
  | Cell.obj none => true
  | Cell.num NumV.nan => true
  | _ => false

/-- Numeric value of a cell; object cells carry no number. -/
def cellNum : Cell → NumV
  | Cell.num v => v
  | Cell.obj _ => NumV.nan

def digitsToNat (l : List Char) : Nat :=
  l.foldl (fun acc c => acc * 10 + (c.toNat - 48)) 0

/-- `pd.to_numeric(·, errors="coerce")` on one token, for the token shapes
the Census API emits: an optional sign, decimal digits, and an optional
fractional part.  Any other token coerces to missing (`none`). -/
def parseNumAux (sign : ℤ) (body : List Char) : Option Frac :=
  match body.dropWhile Char.isDigit with
  | [] =>
    if (body.takeWhile Char.isDigit).isEmpty then none
    else some ⟨sign * (digitsToNat (body.takeWhile Char.isDigit) : ℤ), 1⟩
  | '.' :: fracPart =>
    if fracPart.all Char.isDigit &&
        !((body.takeWhile Char.isDigit).isEmpty && fracPart.isEmpty) then
      some ⟨sign * ((digitsToNat (body.takeWhile Char.isDigit) : ℤ) *
                (10 : ℤ) ^ fracPart.length + (digitsToNat fracPart : ℤ)),
            (10 : ℤ) ^ fracPart.length⟩
    else none
  | _ => none

def parseNum (s : String) : Option Frac :=
  match s.toList with
  | '-' :: rest => parseNumAux (-1) rest
  | '+' :: rest => parseNumAux 1 rest
  | cs => parseNumAux 1 cs

/-- Numeric coercion of one raw cell: JSON null and non-numeric tokens
become NaN. -/
def rawToNum (o : RawCell) : NumV :=
  match o with
  | none => NumV.nan
  | some s =>
    match parseNum s with
    | some f => NumV.real f
    | none => NumV.nan

/-- `pd.to_numeric` on one DataFrame cell. -/
def coerceCell : Cell → Cell
  | Cell.obj o => Cell.num (rawToNum o)
  | Cell.num v => Cell.num v

/-- Division of finite values, keeping the denominator positive.  Only
used when the divisor is nonzero. -/
def fracDiv (a b : Frac) : Frac :=
  if b.num < 0 then ⟨-(a.num * b.den), -(a.den * b.num)⟩
  else ⟨a.num * b.den, a.den * b.num⟩

/-- IEEE-style division as pandas performs it element-wise: NaN is
absorbing; a zero divisor yields `±inf` for a nonzero dividend and NaN
for `0/0`. -/
def numDiv : NumV → NumV → NumV
  | NumV.nan, _ => NumV.nan
  | _, NumV.nan => NumV.nan
  | NumV.real a, NumV.real b =>
    if b.num = 0 then
      if 0 < a.num then NumV.posInf
      else if a.num < 0 then NumV.negInf
      else NumV.nan
    else NumV.real (fracDiv a b)
  | NumV.real _, NumV.posInf => NumV.real ⟨0, 1⟩
  | NumV.real _, NumV.negInf => NumV.real ⟨0, 1⟩
  | NumV.posInf, NumV.real b => if b.num < 0 then NumV.negInf else NumV.posInf
  | NumV.negInf, NumV.real b => if b.num < 0 then NumV.posInf else NumV.negInf
  | NumV.posInf, _ => NumV.nan
  | NumV.negInf, _ => NumV.nan

/-- Multiplication by the literal `100` of the source. -/
def fracMul100 (a : Frac) : Frac := ⟨a.num * 100, a.den⟩

def numMul100 : NumV → NumV
  | NumV.real a => NumV.real (fracMul100 a)
  | v => v

/-- Floor of a `Frac` (integer division; the denominator is positive). -/
def ffloor (f : Frac) : ℤ := f.num / f.den

/-- Round a `Frac` to the nearest integer, ties to even (numpy rounding),
computed on the representation. -/
def froundHE (f : Frac) : ℤ :=
  if 2 * (f.num - ffloor f * f.den) < f.den then ffloor f
  else if f.den < 2 * (f.num - ffloor f * f.den) then ffloor f + 1
  else if ffloor f % 2 = 0 then ffloor f else ffloor f + 1

/-- `round(x, 2)` on a column value, as numpy applies it: finite values are
rounded half-to-even at two decimals, NaN and infinities pass through. -/
def round2 : NumV → NumV
  | NumV.real a => NumV.real ⟨froundHE (fracMul100 a), 100⟩
  | v => v

/-- `(x / d * 100).round(2)` on one pair of column values. -/
def pctNum (x d : NumV) : NumV := round2 (numMul100 (numDiv x d))

/-- Rational-level rounding half to even, for stating specifications. -/
def roundHE (q : ℚ) : ℤ :=
  if q - (⌊q⌋ : ℚ) < 1 / 2 then ⌊q⌋
  else if 1 / 2 < q - (⌊q⌋ : ℚ) then ⌊q⌋ + 1
  else if ⌊q⌋ % 2 = 0 then ⌊q⌋ else ⌊q⌋ + 1

/-- Rational-level `round(q, 2)`, for stating specifications. -/
def round2Rat (q : ℚ) : ℚ := (roundHE (q * 100) : ℚ) / 100

/-- A pandas DataFrame: column names plus rows of positionally aligned
cells. -/
structure DataFrame where
  headers : List String
  rows : List (List Cell)
deriving DecidableEq, Repr

def emptyDF : DataFrame := ⟨[], []⟩

/-- `pd.DataFrame(rows, columns=headers)` turns every raw cell into an
object cell. -/
def toCellRow (r : List RawCell) : List Cell := r.map Cell.obj

/-- Coerce the cell at positional index `i` of one row. -/
def coerceAt (i : Nat) (r : List Cell) : List Cell :=
  r.set i (coerceCell (r.getD i cdef))

/-- `df[col] = pd.to_numeric(df[col], errors="coerce")`. -/
def coerceCol (name : String) (df : DataFrame) : DataFrame :=
  match df.headers.findIdx? (fun h => h = name) with
  | some i => ⟨df.headers, df.rows.map (coerceAt i)⟩
  | none => df

/-- The `for col in numeric_cols` loop of lines 135-136. -/
def coerceAll (names : List String) (df : DataFrame) : DataFrame :=
  names.foldl (fun d n => coerceCol n d) df

/-- The `CENSUS_VARIABLES` mapping of lines 46-58. -/
def CENSUS_VARIABLES : List (String × String) :=
  [("NAME", "Estado"),
   ("B01003_001E", "Población Total"),
   ("B19013_001E", "Ingreso Medio ($)"),
   ("B02001_002E", "Blancos"),
   ("B02001_003E", "Afroamericanos"),
   ("B02001_005E", "Asiáticos"),
   ("B02001_006E", "Haw/Pacific"),
   ("B25003_001E", "Total Viviendas"),
   ("B25003_002E", "Viviendas Propias"),
   ("B15003_022E", "Educación Universitaria"),
   ("B08303_001E", "Tiempo Promedio al Trabajo (min)")]

def renameHeader (h : String) : String :=
  match CENSUS_VARIABLES.find? (fun p => p.1 = h) with
  | some p => p.2
  | none => h

/-- `df.rename(columns=CENSUS_VARIABLES)`: unmapped codes keep their name. -/
def renameCols (df : DataFrame) : DataFrame :=
  ⟨df.headers.map renameHeader, df.rows⟩

/-- `df.dropna(subset=subset)` with pandas' default `how="any"`: a row is
kept only when none of the subset columns is missing in it. -/
def dropnaAny (subset : List String) (df : DataFrame) : DataFrame :=
  ⟨df.headers,
   df.rows.filter (fun r =>
     subset.all (fun nm =>
       match df.headers.findIdx? (fun h => h = nm) with
       | some i => !(r.getD i cdef).isNA
       | none => true))⟩

def mapExcept (f : α → Except String β) : List α → Except String (List β)
  | [] => Except.ok []
  | a :: l => do
    let b ← f a
    let bs ← mapExcept f l
    pure (b :: bs)

/-- Element-wise division of two cells; dividing object-dtype columns
raises, as pandas does. -/
def cellDiv : Cell → Cell → Except String NumV
  | Cell.num x, Cell.num y => Except.ok (numDiv x y)
  | _, _ => Except.error "TypeError"

/-- `df[target] = (df[a] / df[b] * 100).round(2)`: look up the two columns
(the numerator first — a missing name raises `KeyError`) and append the
derived column. -/
def addPct (target a b : String) (df : DataFrame) : Except String DataFrame :=
  match df.headers.findIdx? (fun h => h = a) with
  | none => Except.error ("KeyError: " ++ a)
  | some ia =>
    match df.headers.findIdx? (fun h => h = b) with
    | none => Except.error ("KeyError: " ++ b)
    | some ib =>
      (mapExcept (fun r => do
          let v ← cellDiv (r.getD ia cdef) (r.getD ib cdef)
          pure (r ++ [Cell.num (round2 (numMul100 v))])) df.rows).map
        (fun rs => ⟨df.headers ++ [target], rs⟩)

def charsLE : List Char → List Char → Bool
  | [], _ => true
  | _ :: _, [] => false
  | a :: as, b :: bs =>
    if a.toNat < b.toNat then true
    else if b.toNat < a.toNat then false
    else charsLE as bs

/-- Lexicographic string order by code point. -/
def strLE (s t : String) : Bool := charsLE s.toList t.toList

/-- Sort-key order on identifier cells; missing keys go last. -/
def keyLE (a b : Option String) : Bool :=
  match a, b with
  | none, none => true
  | none, some _ => false
  | some _, none => true
  | some s, some t => strLE s t

/-- Sort key of a row: the string of the cell at index `i`. -/
def keyAt (i : Nat) (r : List Cell) : Option String :=
  match r.getD i cdef with
  | Cell.obj o => o
  | Cell.num _ => none

def insertLE (le : List Cell → List Cell → Bool) (a : List Cell) :
    List (List Cell) → List (List Cell)
  | [] => [a]
  | b :: l => if le a b then a :: b :: l else b :: insertLE le a l

/-- Stable insertion sort. -/
def sortLE (le : List Cell → List Cell → Bool) :
    List (List Cell) → List (List Cell)
  | [] => []
  | a :: l => insertLE le a (sortLE le l)

/-- `df.sort_values('Estado')`. -/
def sortByEstado (df : DataFrame) : Except String DataFrame :=
  match df.headers.findIdx? (fun h => h = "Estado") with
  | none => Except.error "KeyError: Estado"
  | some i =>
    Except.ok ⟨df.headers, sortLE (fun r s => keyLE (keyAt i r) (keyAt i s)) df.rows⟩

/-- Column name taken from a header cell (`headers = data[0]`). -/
def rawHeader (o : RawCell) : String := o.getD "None"

/-- Lines 144-151: the five derived percentage columns, then the sort. -/
def pipelineTail (df3 : DataFrame) : Except String DataFrame := do
  let df4 ← addPct "% Blancos" "Blancos" "Población Total" df3
  let df5 ← addPct "% Afroamericanos" "Afroamericanos" "Población Total" df4
  let df6 ← addPct "% Asiáticos" "Asiáticos" "Población Total" df5
  let df7 ← addPct "% Haw/Pacific" "Haw/Pacific" "Población Total" df6
  let df8 ← addPct "% Viviendas Propias" "Viviendas Propias" "Total Viviendas" df7
  sortByEstado df8

/-- `headers = data[0]` (line 129). -/
def censusHeaders (data : List (List RawCell)) : List String :=
  (data.headD []).map rawHeader

/-- `numeric_cols = [col for col in headers[1:-1] if col != 'NAME']`
(line 134). -/
def censusNumericCols (headers : List String) : List String :=
  ((headers.drop 1).dropLast).filter (fun c => c ≠ "NAME")

/-- `df = pd.DataFrame(rows, columns=headers)` (lines 130-131). -/
def censusFrame (data : List (List RawCell)) : DataFrame :=
  ⟨censusHeaders data, (data.drop 1).map toCellRow⟩

/-- The DataFrame after numeric coercion and renaming (lines 133-139). -/
def censusPrepared (data : List (List RawCell)) : DataFrame :=
  renameCols (coerceAll (censusNumericCols (censusHeaders data)) (censusFrame data))

/-- Lines 128-151 of `app.py`: split header from data rows, build the
DataFrame, coerce every column except the first, the last and `NAME`
(`headers[1:-1]` minus `'NAME'`), rename, drop rows with missing values,
add the derived columns and sort.  A raised error surfaces as
`Except.error`. -/
def processCensus (data : List (List RawCell)) : Except String DataFrame :=
  pipelineTail
    (dropnaAny ((censusPrepared data).headers.filter (fun c => c ≠ "Estado"))
      (censusPrepared data))

/-- Lines 109-155 of `app.py`, parametrized by the fetch result: on an
absent payload or one with fewer than 2 rows an error is reported and the
empty DataFrame returned; an exception inside the processing block is
caught the same way.  The second component collects the `st.error`
messages. -/
def load_census_data (fetched : Option (List (List RawCell))) :
    DataFrame × List String :=
  match fetched with
  | none => (emptyDF, ["❌ No se pudieron cargar los datos del Census API"])
  | some data =>
    if data.length < 2 then
      (emptyDF, ["❌ No se pudieron cargar los datos del Census API"])
    else
      match processCensus data with
      | Except.ok df => (df, [])
      | Except.error e => (emptyDF, ["❌ Error procesando datos: " ++ e])

/-- Outcome of one `requests.get` attempt: a JSON payload, a timeout, a
`RequestException` (connection error / bad HTTP status), or any other
exception (e.g. a malformed body). -/
inductive Outcome where
  | ok (p : List (List RawCell))
  | timeout
  | requestError
  | otherError
deriving DecidableEq

/-- User-visible events emitted by the retry loop. -/
inductive Event where
  | retryWarning
  | timeoutError
  | connectionError
  | unexpectedError
deriving DecidableEq

structure ReqResult where
  result : Option (List (List RawCell))
  calls : Nat
  events : List Event
deriving DecidableEq

/-- The body of `for attempt in range(total)` with `remaining` iterations
left, so the current attempt index is `total - remaining`.  One GET is
issued per iteration; a timeout on the last attempt (index `total - 1`)
reports the timeout error and returns `None`; earlier timeouts warn and
retry; any other failure returns `None` at once.  Falling off the loop
(`remaining = 0`) is line 107's `return None`. -/
def runAttempts (att : Nat → Outcome) (total : Nat) : Nat → ReqResult
  | 0 => ⟨none, 0, []⟩
  | (r + 1) =>
    match att (total - (r + 1)) with
    | Outcome.ok p => ⟨some p, 1, []⟩
    | Outcome.timeout =>
      if total - (r + 1) = total - 1 then ⟨none, 1, [Event.timeoutError]⟩
      else
        let rest := runAttempts att total r
        ⟨rest.result, rest.calls + 1, Event.retryWarning :: rest.events⟩
    | Outcome.requestError => ⟨none, 1, [Event.connectionError]⟩
    | Outcome.otherError => ⟨none, 1, [Event.unexpectedError]⟩

/-- `make_census_request` (lines 87-107), parametrized by the outcome of
each attempt and by `API_CONFIG['retry_attempts']`. -/
def make_census_request (att : Nat → Outcome) (retry_attempts : Nat) : ReqResult :=
  runAttempts att retry_attempts retry_attempts

/-- One access through `@st.cache_data`: result table, cache state after
the access, and how many GET calls the access performed. -/
structure AccessResult where
  table : DataFrame
  cacheAfter : Option DataFrame
  fetchCalls : Nat
deriving DecidableEq

/-- `@st.cache_data(ttl=3600)` applied to `load_census_data`: within the
TTL a cached return value is served with no fetch; on a miss the function
runs (its GET calls counted) and whatever DataFrame it returns — success
or failure — is stored. -/
def cachedLoad (cache : Option DataFrame) (att : Nat → Outcome) (n : Nat) :
    AccessResult :=
  match cache with
  | some df => ⟨df, some df, 0⟩
  | none =>
    ⟨(load_census_data (make_census_request att n).result).1,
     some (load_census_data (make_census_request att n).result).1,
     (make_census_request att n).calls⟩

/-- The header row the configured query always requests: the 11 variable
codes of `CENSUS_VARIABLES` in order, plus the positional `state` FIPS
column the API appends. -/
def stdHeaders : List String :=
  ["NAME", "B01003_001E", "B19013_001E", "B02001_002E", "B02001_003E",
   "B02001_005E", "B02001_006E", "B25003_001E", "B25003_002E",
   "B15003_022E", "B08303_001E", "state"]

def stdHeaderRow : List RawCell := stdHeaders.map some

/-- The ten codes `censusNumericCols` selects from the standard headers. -/
def numericColsStd : List String :=
  ["B01003_001E", "B19013_001E", "B02001_002E", "B02001_003E",
   "B02001_005E", "B02001_006E", "B25003_001E", "B25003_002E",
   "B15003_022E", "B08303_001E"]

/-- The standard headers after `df.rename(columns=CENSUS_VARIABLES)`. -/
def renamedHeaders : List String :=
  ["Estado", "Población Total", "Ingreso Medio ($)", "Blancos",
   "Afroamericanos", "Asiáticos", "Haw/Pacific", "Total Viviendas",
   "Viviendas Propias", "Educación Universitaria",
   "Tiempo Promedio al Trabajo (min)", "state"]

def finalHeaders : List String :=
  renamedHeaders ++ ["% Blancos", "% Afroamericanos", "% Asiáticos",
                     "% Haw/Pacific", "% Viviendas Propias"]

/-- The dropna subset for the standard headers: every column except the
identifier `Estado` — the ten numeric columns and `state`. -/
def subsetStd : List String :=
  ["Población Total", "Ingreso Medio ($)", "Blancos", "Afroamericanos",
   "Asiáticos", "Haw/Pacific", "Total Viviendas", "Viviendas Propias",
   "Educación Universitaria", "Tiempo Promedio al Trabajo (min)", "state"]

/-- The row-keep predicate `dropnaAny` uses on the standard headers. -/
def keepStd (r : List Cell) : Bool :=
  subsetStd.all (fun nm =>
    match renamedHeaders.findIdx? (fun h => h = nm) with
    | some i => !(r.getD i cdef).isNA
    | none => true)

/-- The ten column coercions of the standard payload, as applied to one
row (columns at positions 1 through 10). -/
def coercedRows (rows : List (List RawCell)) : List (List Cell) :=
  ((((((((((rows.map toCellRow).map (coerceAt 1)).map (coerceAt 2)).map
    (coerceAt 3)).map (coerceAt 4)).map (coerceAt 5)).map (coerceAt 6)).map
    (coerceAt 7)).map (coerceAt 8)).map (coerceAt 9)).map (coerceAt 10)

def filteredRows (rows : List (List RawCell)) : List (List Cell) :=
  (coercedRows rows).filter keepStd

/-- `% Blancos` appended: columns 3 (`Blancos`) over 1 (`Población Total`). -/
def q1 (r : List Cell) : List Cell :=
  r ++ [Cell.num (round2 (numMul100 (numDiv (cellNum (r.getD 3 cdef)) (cellNum (r.getD 1 cdef)))))]

/-- `% Afroamericanos` appended: columns 4 over 1. -/
def q2 (r : List Cell) : List Cell :=
  r ++ [Cell.num (round2 (numMul100 (numDiv (cellNum (r.getD 4 cdef)) (cellNum (r.getD 1 cdef)))))]

/-- `% Asiáticos` appended: columns 5 over 1. -/
def q3 (r : List Cell) : List Cell :=
  r ++ [Cell.num (round2 (numMul100 (numDiv (cellNum (r.getD 5 cdef)) (cellNum (r.getD 1 cdef)))))]

/-- `% Haw/Pacific` appended: columns 6 over 1. -/
def q4 (r : List Cell) : List Cell :=
  r ++ [Cell.num (round2 (numMul100 (numDiv (cellNum (r.getD 6 cdef)) (cellNum (r.getD 1 cdef)))))]

/-- `% Viviendas Propias` appended: columns 8 (`Viviendas Propias`) over 7
(`Total Viviendas`). -/
def q5 (r : List Cell) : List Cell :=
  r ++ [Cell.num (round2 (numMul100 (numDiv (cellNum (r.getD 8 cdef)) (cellNum (r.getD 7 cdef)))))]

def outRows (rows : List (List RawCell)) : List (List Cell) :=
  (((((filteredRows rows).map q1).map q2).map q3).map q4).map q5

/-- Sorting by `Estado`, which sits at position 0 of the standard headers. -/
def sortStd (l : List (List Cell)) : List (List Cell) :=
  sortLE (fun r s => keyLE (keyAt 0 r) (keyAt 0 s)) l

/-! ### Concrete payloads used by claim theorems -/

/-- The raw input of claim C6. -/
def c6pay : List (List RawCell) :=
  [[some "NAME", some "B01003_001E"],
   [some "California", some "39000000"],
   [some "Texas", some "30000000"]]

/-- A complete, fully numeric data row (Alabama). -/
def c2rowA : List RawCell :=
  [some "Alabama", some "5024279", some "52035", some "3220452", some "1296162",
   some "69331", some "2238", some "2288330", some "1576425", some "848545",
   some "25", some "01"]

/-- A data row (Alaska) that is valid except for one single column:
`B19013_001E` (median income) is the non-numeric token "N/A". -/
def c2rowB : List RawCell :=
  [some "Alaska", some "733391", some "N/A", some "435392", some "21898",
   some "44032", some "11209", some "314670", some "179236", some "142744",
   some "19", some "02"]

def c2pay : List (List RawCell) := [stdHeaderRow, c2rowA, c2rowB]

/-- Payload for the claim C3 counterexample: a surviving row with
`Población Total = "0"` and `Blancos = "5"`. -/
def c3cexpay : List (List RawCell) :=
  [stdHeaderRow,
   [some "Utopia", some "0", some "1", some "5", some "0", some "0", some "0",
    some "10", some "5", some "1", some "10", some "99"]]

/-- Witness payload for claim C3: one complete data row. -/
def c3wrow : List RawCell :=
  [some "Alabama", some "5024279", some "52035", some "3220452", some "1296162",
   some "69331", some "2238", some "2288330", some "1576425", some "848545",
   some "25", some "01"]

/-- Payload for the claim C7 counterexample: `Blancos = 25001` strictly
exceeds `Población Total = 25000`. -/
def c7cexpay : List (List RawCell) :=
  [stdHeaderRow,
   [some "Ruritania", some "25000", some "1", some "25001", some "1", some "1",
    some "1", some "10", some "5", some "1", some "10", some "98"]]

/-- Witness payload for claim C7: `Blancos = 3` exceeds
`Población Total = 2`. -/
def c7wrow : List RawCell :=
  [some "Wonderland", some "2", some "1", some "3", some "1", some "1",
   some "1", some "10", some "5", some "1", some "10", some "97"]

/-- Witness payload for claim C10. -/
def c10wrow : List RawCell :=
  [some "Texas", some "29145505", some "63826", some "14609365", some "3552997",
   some "1585480", some "33199", some "11087708", some "6882449", some "3711527",
   some "26", some "48"]

/-! ### Infrastructure lemmas -/

lemma ebind_ok {α β : Type} (a : α) (f : α → Except String β) :
    (Except.ok a >>= f) = f a := rfl

lemma mapExcept_ok {α β : Type} {f : α → Except String β} {g : α → β} :
    ∀ l : List α, (∀ x ∈ l, f x = Except.ok (g x)) →
      mapExcept f l = Except.ok (l.map g) := by
  intro l
  induction l with
  | nil => intro _; rfl
  | cons a t ih =>
    intro h
    have ha := h a (List.mem_cons_self a t)
    have ht := ih (fun x hx => h x (List.mem_cons_of_mem a hx))
    simp only [mapExcept, ha, ht, ebind_ok, List.map_cons]
    rfl

lemma coerceCol_mk (n : String) (i : Nat) (H : List String) (R : List (List Cell))
    (h : H.findIdx? (fun x => x = n) = some i) :
    coerceCol n ⟨H, R⟩ = ⟨H, R.map (coerceAt i)⟩ := by
  unfold coerceCol
  have hp : (DataFrame.mk H R).headers = H := rfl
  rw [hp, h]

lemma coerceAll_std (R : List (List Cell)) :
    coerceAll numericColsStd ⟨stdHeaders, R⟩ =
      ⟨stdHeaders,
        (((((((((R.map (coerceAt 1)).map (coerceAt 2)).map (coerceAt 3)).map
          (coerceAt 4)).map (coerceAt 5)).map (coerceAt 6)).map (coerceAt 7)).map
          (coerceAt 8)).map (coerceAt 9)).map (coerceAt 10)⟩ := by
  unfold coerceAll numericColsStd
  simp only [List.foldl_cons, List.foldl_nil]
  rw [coerceCol_mk "B01003_001E" 1 _ _ (by decide)]
  rw [coerceCol_mk "B19013_001E" 2 _ _ (by decide)]
  rw [coerceCol_mk "B02001_002E" 3 _ _ (by decide)]
  rw [coerceCol_mk "B02001_003E" 4 _ _ (by decide)]
  rw [coerceCol_mk "B02001_005E" 5 _ _ (by decide)]
  rw [coerceCol_mk "B02001_006E" 6 _ _ (by decide)]
  rw [coerceCol_mk "B25003_001E" 7 _ _ (by decide)]
  rw [coerceCol_mk "B25003_002E" 8 _ _ (by decide)]
  rw [coerceCol_mk "B15003_022E" 9 _ _ (by decide)]
  rw [coerceCol_mk "B08303_001E" 10 _ _ (by decide)]

lemma renameCols_std (R : List (List Cell)) :
    renameCols ⟨stdHeaders, R⟩ = ⟨renamedHeaders, R⟩ := by
  unfold renameCols
  congr 1

lemma dropna_std (R : List (List Cell)) :
    dropnaAny subsetStd ⟨renamedHeaders, R⟩ = ⟨renamedHeaders, R.filter keepStd⟩ :=
  rfl

lemma addPct_eq {H : List String} {a b : String} {ia ib : Nat} (t : String)
    {R : List (List Cell)} {g : List Cell → List Cell}
    (ha : H.findIdx? (fun h => h = a) = some ia)
    (hb : H.findIdx? (fun h => h = b) = some ib)
    (hg : ∀ r ∈ R, (do
        let v ← cellDiv (r.getD ia cdef) (r.getD ib cdef)
        pure (r ++ [Cell.num (round2 (numMul100 v))]) : Except String (List Cell)) =
          Except.ok (g r)) :
    addPct t a b ⟨H, R⟩ = Except.ok ⟨H ++ [t], R.map g⟩ := by
  simp only [addPct, ha, hb]
  rw [mapExcept_ok R hg]
  rfl

lemma sortByEstado_mk (H : List String) (R : List (List Cell))
    (h : H.findIdx? (fun x => x = "Estado") = some 0) :
    sortByEstado ⟨H, R⟩ = Except.ok ⟨H, sortStd R⟩ := by
  simp only [sortByEstado, h]
  rfl

lemma mem_insertLE (le : List Cell → List Cell → Bool) (a x : List Cell)
    (l : List (List Cell)) : x ∈ insertLE le a l ↔ x = a ∨ x ∈ l := by
  induction l with
  | nil => simp [insertLE]
  | cons b t ih =>
    unfold insertLE
    split
    · simp [List.mem_cons]
    · simp only [List.mem_cons, ih]
      tauto

lemma mem_sortLE (le : List Cell → List Cell → Bool) (x : List Cell)
    (l : List (List Cell)) : x ∈ sortLE le l ↔ x ∈ l := by
  induction l with
  | nil => simp [sortLE]
  | cons a t ih =>
    simp [sortLE, mem_insertLE, ih, List.mem_cons]

lemma list12_shape (r : List RawCell) (h : r.length = 12) :
    ∃ o0 o1 o2 o3 o4 o5 o6 o7 o8 o9 o10 o11,
      r = [o0, o1, o2, o3, o4, o5, o6, o7, o8, o9, o10, o11] := by
  rcases r with _ | ⟨o0, r⟩
  · simp at h
  rcases r with _ | ⟨o1, r⟩
  · simp at h
  rcases r with _ | ⟨o2, r⟩
  · simp at h
  rcases r with _ | ⟨o3, r⟩
  · simp at h
  rcases r with _ | ⟨o4, r⟩
  · simp at h
  rcases r with _ | ⟨o5, r⟩
  · simp at h
  rcases r with _ | ⟨o6, r⟩
  · simp at h
  rcases r with _ | ⟨o7, r⟩
  · simp at h
  rcases r with _ | ⟨o8, r⟩
  · simp at h
  rcases r with _ | ⟨o9, r⟩
  · simp at h
  rcases r with _ | ⟨o10, r⟩
  · simp at h
  rcases r with _ | ⟨o11, r⟩
  · simp at h
  rcases r with _ | ⟨o12, r⟩
  · exact ⟨o0, o1, o2, o3, o4, o5, o6, o7, o8, o9, o10, o11, rfl⟩
  · simp only [List.length_cons] at h
    omega

lemma mem_coercedRows (rows : List (List RawCell)) (w : List Cell)
    (hw : w ∈ coercedRows rows) :
    ∃ r ∈ rows, w = coerceAt 10 (coerceAt 9 (coerceAt 8 (coerceAt 7 (coerceAt 6
      (coerceAt 5 (coerceAt 4 (coerceAt 3 (coerceAt 2 (coerceAt 1
        (toCellRow r)))))))))) := by
  unfold coercedRows at hw
  simp only [List.map_map] at hw
  obtain ⟨r, hr, rfl⟩ := List.mem_map.mp hw
  exact ⟨r, hr, rfl⟩

lemma mem_filtered_shape (rows : List (List RawCell))
    (hlen : ∀ r ∈ rows, r.length = 12) (w : List Cell)
    (hw : w ∈ filteredRows rows) :
    (∃ o0 o1 o2 o3 o4 o5 o6 o7 o8 o9 o10 o11,
      w = [Cell.obj o0, Cell.num (rawToNum o1), Cell.num (rawToNum o2),
           Cell.num (rawToNum o3), Cell.num (rawToNum o4), Cell.num (rawToNum o5),
           Cell.num (rawToNum o6), Cell.num (rawToNum o7), Cell.num (rawToNum o8),
           Cell.num (rawToNum o9), Cell.num (rawToNum o10), Cell.obj o11]) ∧
    keepStd w = true := by
  unfold filteredRows at hw
  obtain ⟨hmem, hkeep⟩ := List.mem_filter.mp hw
  refine ⟨?_, hkeep⟩
  obtain ⟨r, hr, rfl⟩ := mem_coercedRows rows w hmem
  obtain ⟨o0, o1, o2, o3, o4, o5, o6, o7, o8, o9, o10, o11, rfl⟩ :=
    list12_shape r (hlen r hr)
  exact ⟨o0, o1, o2, o3, o4, o5, o6, o7, o8, o9, o10, o11, rfl⟩

/-- On a payload with the standard header row and well-formed (12-column)
data rows, the processing block succeeds and produces exactly: the
coerced rows that survive the dropna filter, extended by the five derived
percentage columns, sorted by `Estado`. -/
theorem processCensus_std (rows : List (List RawCell))
    (hlen : ∀ r ∈ rows, r.length = 12) :
    processCensus (stdHeaderRow :: rows) =
      Except.ok ⟨finalHeaders, sortStd (outRows rows)⟩ := by
  have hH : censusHeaders (stdHeaderRow :: rows) = stdHeaders := by
    simp only [censusHeaders, List.headD_cons]
    decide
  have hF : censusFrame (stdHeaderRow :: rows) = ⟨stdHeaders, rows.map toCellRow⟩ := by
    unfold censusFrame
    rw [hH]
    rfl
  have hNC : censusNumericCols stdHeaders = numericColsStd := by decide
  have hprep : censusPrepared (stdHeaderRow :: rows) = ⟨renamedHeaders, coercedRows rows⟩ := by
    unfold censusPrepared
    rw [hH, hNC, hF, coerceAll_std, renameCols_std]
    rfl
  unfold processCensus
  rw [hprep]
  rw [show (DataFrame.mk renamedHeaders (coercedRows rows)).headers = renamedHeaders from rfl]
  rw [show renamedHeaders.filter (fun c => c ≠ "Estado") = subsetStd from by decide]
  rw [dropna_std]
  rw [show (coercedRows rows).filter keepStd = filteredRows rows from rfl]
  unfold pipelineTail
  have hg1 : ∀ w ∈ filteredRows rows, (do
      let v ← cellDiv (w.getD 3 cdef) (w.getD 1 cdef)
      pure (w ++ [Cell.num (round2 (numMul100 v))]) : Except String (List Cell)) =
        Except.ok (q1 w) := by
    intro w hw
    obtain ⟨⟨o0, o1, o2, o3, o4, o5, o6, o7, o8, o9, o10, o11, rfl⟩, _⟩ :=
      mem_filtered_shape rows hlen w hw
    rfl
  have hb1 : renamedHeaders.findIdx? (fun h => h = "Blancos") = some 3 := by decide
  have hp1 : renamedHeaders.findIdx? (fun h => h = "Población Total") = some 1 := by decide
  rw [addPct_eq "% Blancos" hb1 hp1 hg1]
  simp only [ebind_ok]
  have hg2 : ∀ w ∈ (filteredRows rows).map q1, (do
      let v ← cellDiv (w.getD 4 cdef) (w.getD 1 cdef)
      pure (w ++ [Cell.num (round2 (numMul100 v))]) : Except String (List Cell)) =
        Except.ok (q2 w) := by
    intro w hw
    obtain ⟨w1, hw1, rfl⟩ := List.mem_map.mp hw
    obtain ⟨⟨o0, o1, o2, o3, o4, o5, o6, o7, o8, o9, o10, o11, rfl⟩, _⟩ :=
      mem_filtered_shape rows hlen w1 hw1
    rfl
  have hb2 : (renamedHeaders ++ ["% Blancos"]).findIdx?
      (fun h => h = "Afroamericanos") = some 4 := by decide
  have hp2 : (renamedHeaders ++ ["% Blancos"]).findIdx?
      (fun h => h = "Población Total") = some 1 := by decide
  rw [addPct_eq "% Afroamericanos" hb2 hp2 hg2]
  simp only [ebind_ok]
  have hg3 : ∀ w ∈ ((filteredRows rows).map q1).map q2, (do
      let v ← cellDiv (w.getD 5 cdef) (w.getD 1 cdef)
      pure (w ++ [Cell.num (round2 (numMul100 v))]) : Except String (List Cell)) =
        Except.ok (q3 w) := by
    intro w hw
    obtain ⟨w2, hw2, rfl⟩ := List.mem_map.mp hw
    obtain ⟨w1, hw1, rfl⟩ := List.mem_map.mp hw2
    obtain ⟨⟨o0, o1, o2, o3, o4, o5, o6, o7, o8, o9, o10, o11, rfl⟩, _⟩ :=
      mem_filtered_shape rows hlen w1 hw1
    rfl
  have hb3 : ((renamedHeaders ++ ["% Blancos"]) ++ ["% Afroamericanos"]).findIdx?
      (fun h => h = "Asiáticos") = some 5 := by decide
  have hp3 : ((renamedHeaders ++ ["% Blancos"]) ++ ["% Afroamericanos"]).findIdx?
      (fun h => h = "Población Total") = some 1 := by decide
  rw [addPct_eq "% Asiáticos" hb3 hp3 hg3]
  simp only [ebind_ok]
  have hg4 : ∀ w ∈ (((filteredRows rows).map q1).map q2).map q3, (do
      let v ← cellDiv (w.getD 6 cdef) (w.getD 1 cdef)
      pure (w ++ [Cell.num (round2 (numMul100 v))]) : Except String (List Cell)) =
        Except.ok (q4 w) := by
    intro w hw
    obtain ⟨w3, hw3, rfl⟩ := List.mem_map.mp hw
    obtain ⟨w2, hw2, rfl⟩ := List.mem_map.mp hw3
    obtain ⟨w1, hw1, rfl⟩ := List.mem_map.mp hw2
    obtain ⟨⟨o0, o1, o2, o3, o4, o5, o6, o7, o8, o9, o10, o11, rfl⟩, _⟩ :=
      mem_filtered_shape rows hlen w1 hw1
    rfl
  have hb4 : (((renamedHeaders ++ ["% Blancos"]) ++ ["% Afroamericanos"]) ++
      ["% Asiáticos"]).findIdx? (fun h => h = "Haw/Pacific") = some 6 := by decide
  have hp4 : (((renamedHeaders ++ ["% Blancos"]) ++ ["% Afroamericanos"]) ++
      ["% Asiáticos"]).findIdx? (fun h => h = "Población Total") = some 1 := by decide
  rw [addPct_eq "% Haw/Pacific" hb4 hp4 hg4]
  simp only [ebind_ok]
  have hg5 : ∀ w ∈ ((((filteredRows rows).map q1).map q2).map q3).map q4, (do
      let v ← cellDiv (w.getD 8 cdef) (w.getD 7 cdef)
      pure (w ++ [Cell.num (round2 (numMul100 v))]) : Except String (List Cell)) =
        Except.ok (q5 w) := by
    intro w hw
    obtain ⟨w4, hw4, rfl⟩ := List.mem_map.mp hw
    obtain ⟨w3, hw3, rfl⟩ := List.mem_map.mp hw4
    obtain ⟨w2, hw2, rfl⟩ := List.mem_map.mp hw3
    obtain ⟨w1, hw1, rfl⟩ := List.mem_map.mp hw2
    obtain ⟨⟨o0, o1, o2, o3, o4, o5, o6, o7, o8, o9, o10, o11, rfl⟩, _⟩ :=
      mem_filtered_shape rows hlen w1 hw1
    rfl
  have hb5 : ((((renamedHeaders ++ ["% Blancos"]) ++ ["% Afroamericanos"]) ++
      ["% Asiáticos"]) ++ ["% Haw/Pacific"]).findIdx?
      (fun h => h = "Viviendas Propias") = some 8 := by decide
  have hp5 : ((((renamedHeaders ++ ["% Blancos"]) ++ ["% Afroamericanos"]) ++
      ["% Asiáticos"]) ++ ["% Haw/Pacific"]).findIdx?
      (fun h => h = "Total Viviendas") = some 7 := by decide
  rw [addPct_eq "% Viviendas Propias" hb5 hp5 hg5]
  simp only [ebind_ok]
  have hes : (((((renamedHeaders ++ ["% Blancos"]) ++ ["% Afroamericanos"]) ++
      ["% Asiáticos"]) ++ ["% Haw/Pacific"]) ++ ["% Viviendas Propias"]).findIdx?
      (fun x => x = "Estado") = some 0 := by decide
  rw [sortByEstado_mk _ _ hes]
  rw [show ((((renamedHeaders ++ ["% Blancos"]) ++ ["% Afroamericanos"]) ++
      ["% Asiáticos"]) ++ ["% Haw/Pacific"]) ++ ["% Viviendas Propias"] = finalHeaders
      from by decide]
  rfl

/-- Every row of the normalized table is a surviving coerced source row
followed by its five derived percentage cells. -/
theorem out_shape (rows : List (List RawCell))
    (hlen : ∀ r ∈ rows, r.length = 12) (out : List Cell)
    (hout : out ∈ sortStd (outRows rows)) :
    ∃ o0 o1 o2 o3 o4 o5 o6 o7 o8 o9 o10 o11,
      out = [Cell.obj o0, Cell.num (rawToNum o1), Cell.num (rawToNum o2),
             Cell.num (rawToNum o3), Cell.num (rawToNum o4), Cell.num (rawToNum o5),
             Cell.num (rawToNum o6), Cell.num (rawToNum o7), Cell.num (rawToNum o8),
             Cell.num (rawToNum o9), Cell.num (rawToNum o10), Cell.obj o11,
             Cell.num (pctNum (rawToNum o3) (rawToNum o1)),
             Cell.num (pctNum (rawToNum o4) (rawToNum o1)),
             Cell.num (pctNum (rawToNum o5) (rawToNum o1)),
             Cell.num (pctNum (rawToNum o6) (rawToNum o1)),
             Cell.num (pctNum (rawToNum o8) (rawToNum o7))] ∧
      keepStd [Cell.obj o0, Cell.num (rawToNum o1), Cell.num (rawToNum o2),
           Cell.num (rawToNum o3), Cell.num (rawToNum o4), Cell.num (rawToNum o5),
           Cell.num (rawToNum o6), Cell.num (rawToNum o7), Cell.num (rawToNum o8),
           Cell.num (rawToNum o9), Cell.num (rawToNum o10), Cell.obj o11] = true := by
  rw [sortStd, mem_sortLE] at hout
  unfold outRows at hout
  obtain ⟨w4, hw4, rfl⟩ := List.mem_map.mp hout
  obtain ⟨w3, hw3, rfl⟩ := List.mem_map.mp hw4
  obtain ⟨w2, hw2, rfl⟩ := List.mem_map.mp hw3
  obtain ⟨w1, hw1, rfl⟩ := List.mem_map.mp hw2
  obtain ⟨w0, hw0, rfl⟩ := List.mem_map.mp hw1
  obtain ⟨⟨o0, o1, o2, o3, o4, o5, o6, o7, o8, o9, o10, o11, rfl⟩, hkeep⟩ :=
    mem_filtered_shape rows hlen w0 hw0
  exact ⟨o0, o1, o2, o3, o4, o5, o6, o7, o8, o9, o10, o11, rfl, hkeep⟩

lemma keepStd_fields (c0 c1 c2 c3 c4 c5 c6 c7 c8 c9 c10 c11 : Cell)
    (h : keepStd [c0, c1, c2, c3, c4, c5, c6, c7, c8, c9, c10, c11] = true) :
    c1.isNA = false ∧ c2.isNA = false ∧ c3.isNA = false ∧ c4.isNA = false ∧
    c5.isNA = false ∧ c6.isNA = false ∧ c7.isNA = false ∧ c8.isNA = false ∧
    c9.isNA = false ∧ c10.isNA = false ∧ c11.isNA = false := by
  have e : keepStd [c0, c1, c2, c3, c4, c5, c6, c7, c8, c9, c10, c11] =
      (!c1.isNA && (!c2.isNA && (!c3.isNA && (!c4.isNA && (!c5.isNA && (!c6.isNA &&
       (!c7.isNA && (!c8.isNA && (!c9.isNA && (!c10.isNA && (!c11.isNA &&
        true))))))))))) := rfl
  rw [e] at h
  simp only [Bool.and_eq_true, Bool.not_eq_true'] at h
  exact ⟨h.1, h.2.1, h.2.2.1, h.2.2.2.1, h.2.2.2.2.1, h.2.2.2.2.2.1,
         h.2.2.2.2.2.2.1, h.2.2.2.2.2.2.2.1, h.2.2.2.2.2.2.2.2.1,
         h.2.2.2.2.2.2.2.2.2.1, h.2.2.2.2.2.2.2.2.2.2.1⟩

lemma isNA_num_iff (v : NumV) : (Cell.num v).isNA = false ↔ v ≠ NumV.nan := by
  cases v <;> simp [Cell.isNA]

lemma isNA_obj_iff (o : Option String) : (Cell.obj o).isNA = false ↔ o ≠ none := by
  cases o <;> simp [Cell.isNA]

lemma parseNumAux_den_pos (sign : ℤ) (body : List Char) (f : Frac)
    (h : parseNumAux sign body = some f) : 0 < f.den := by
  unfold parseNumAux at h
  split at h
  · split at h
    · exact absurd h (by simp)
    · cases h
      exact Int.one_pos
  · split at h
    · cases h
      exact pow_pos (by norm_num) _
    · exact absurd h (by simp)
  · exact absurd h (by simp)

lemma parseNum_den_pos (s : String) (f : Frac) (h : parseNum s = some f) :
    0 < f.den := by
  unfold parseNum at h
  split at h
  · exact parseNumAux_den_pos _ _ _ h
  · exact parseNumAux_den_pos _ _ _ h
  · exact parseNumAux_den_pos _ _ _ h

lemma rawToNum_den_pos (o : RawCell) (f : Frac) (h : rawToNum o = NumV.real f) :
    0 < f.den := by
  rcases o with _ | s
  · exact absurd h (by simp [rawToNum])
  · rcases hp : parseNum s with _ | fp
    · simp only [rawToNum, hp] at h
      exact absurd h (by simp)
    · simp only [rawToNum, hp, NumV.real.injEq] at h
      subst h
      exact parseNum_den_pos s fp hp

lemma fracDiv_den_pos (x d : Frac) (hx : 0 < x.den) (hd : d.num ≠ 0) :
    0 < (fracDiv x d).den := by
  unfold fracDiv
  split_ifs with hneg
  · show 0 < -(x.den * d.num)
    have : x.den * d.num < 0 := mul_neg_of_pos_of_neg hx hneg
    omega
  · show 0 < x.den * d.num
    have : 0 < d.num := lt_of_le_of_ne (not_lt.mp hneg) (Ne.symm hd)
    exact mul_pos hx this

lemma toRat_fracDiv (x d : Frac) (hx : 0 < x.den) (hd : 0 < d.den)
    (hdn : d.num ≠ 0) : (fracDiv x d).toRat = x.toRat / d.toRat := by
  have hxden : (x.den : ℚ) ≠ 0 := Int.cast_ne_zero.mpr (ne_of_gt hx)
  have hdden : (d.den : ℚ) ≠ 0 := Int.cast_ne_zero.mpr (ne_of_gt hd)
  have hdnum : (d.num : ℚ) ≠ 0 := Int.cast_ne_zero.mpr hdn
  unfold fracDiv Frac.toRat
  split_ifs with hneg
  · show ((-(x.num * d.den) : ℤ) : ℚ) / ((-(x.den * d.num) : ℤ) : ℚ) = _
    push_cast
    field_simp
  · show ((x.num * d.den : ℤ) : ℚ) / ((x.den * d.num : ℤ) : ℚ) = _
    push_cast
    field_simp

lemma toRat_fracMul100 (a : Frac) : (fracMul100 a).toRat = a.toRat * 100 := by
  unfold fracMul100 Frac.toRat
  show ((a.num * 100 : ℤ) : ℚ) / ((a.den : ℤ) : ℚ) = _
  push_cast
  ring

lemma ffloor_eq (f : Frac) (h : 0 < f.den) : ffloor f = ⌊f.toRat⌋ := by
  have hd : (0 : ℚ) < (f.den : ℚ) := by exact_mod_cast h
  symm
  rw [Int.floor_eq_iff]
  constructor
  · rw [Frac.toRat, le_div_iff₀ hd]
    have hle : ffloor f * f.den ≤ f.num := by
      unfold ffloor
      exact Int.ediv_mul_le f.num (ne_of_gt h)
    exact_mod_cast hle
  · rw [Frac.toRat, div_lt_iff₀ hd]
    have hlt : f.num < (ffloor f + 1) * f.den := by
      unfold ffloor
      exact Int.lt_ediv_add_one_mul_self f.num h
    exact_mod_cast hlt

lemma sub_floor_frac (f : Frac) (h : 0 < f.den) (k : ℤ) :
    f.toRat - (k : ℚ) = ((f.num - k * f.den : ℤ) : ℚ) / (f.den : ℚ) := by
  have hdden : (f.den : ℚ) ≠ 0 := Int.cast_ne_zero.mpr (ne_of_gt h)
  unfold Frac.toRat
  push_cast
  field_simp
  ring

lemma froundHE_eq (f : Frac) (h : 0 < f.den) : froundHE f = roundHE f.toRat := by
  have hd : (0 : ℚ) < (f.den : ℚ) := by exact_mod_cast h
  have hfl := ffloor_eq f h
  have hlt : ∀ k : ℤ, (2 * (f.num - k * f.den) < f.den) ↔
      (f.toRat - (k : ℚ) < 1 / 2) := by
    intro k
    rw [sub_floor_frac f h k, div_lt_iff₀ hd]
    constructor
    · intro hk
      have hk2 : ((2 * (f.num - k * f.den) : ℤ) : ℚ) < ((f.den : ℤ) : ℚ) := by
        exact_mod_cast hk
      push_cast at hk2 ⊢
      linarith
    · intro hk
      push_cast at hk
      have hk2 : ((2 * (f.num - k * f.den) : ℤ) : ℚ) < ((f.den : ℤ) : ℚ) := by
        push_cast
        linarith
      exact_mod_cast hk2
  have hgt : ∀ k : ℤ, (f.den < 2 * (f.num - k * f.den)) ↔
      ((1 : ℚ) / 2 < f.toRat - (k : ℚ)) := by
    intro k
    rw [sub_floor_frac f h k, lt_div_iff₀ hd]
    constructor
    · intro hk
      have hk2 : ((f.den : ℤ) : ℚ) < ((2 * (f.num - k * f.den) : ℤ) : ℚ) := by
        exact_mod_cast hk
      push_cast at hk2 ⊢
      linarith
    · intro hk
      push_cast at hk
      have hk2 : ((f.den : ℤ) : ℚ) < ((2 * (f.num - k * f.den) : ℤ) : ℚ) := by
        push_cast
        linarith
      exact_mod_cast hk2
  unfold froundHE roundHE
  rw [← hfl]
  rcases lt_trichotomy (2 * (f.num - ffloor f * f.den)) f.den with hc | hc | hc
  · rw [if_pos hc, if_pos ((hlt (ffloor f)).mp hc)]
  · have h1 : ¬ 2 * (f.num - ffloor f * f.den) < f.den := by omega
    have h2 : ¬ f.den < 2 * (f.num - ffloor f * f.den) := by omega
    rw [if_neg h1, if_neg h2, if_neg (fun hq => h1 ((hlt (ffloor f)).mpr hq)),
        if_neg (fun hq => h2 ((hgt (ffloor f)).mpr hq))]
  · have h1 : ¬ 2 * (f.num - ffloor f * f.den) < f.den := by omega
    rw [if_neg h1, if_pos hc, if_neg (fun hq => h1 ((hlt (ffloor f)).mpr hq)),
        if_pos ((hgt (ffloor f)).mp hc)]

lemma roundHE_ge_floor (q : ℚ) : ⌊q⌋ ≤ roundHE q := by
  unfold roundHE
  split_ifs
  · exact le_refl _
  · exact Int.le_add_one (le_refl _)
  · exact le_refl _
  · exact Int.le_add_one (le_refl _)

lemma pctNum_nan_right (x : NumV) : pctNum x NumV.nan = NumV.nan := by
  cases x <;> rfl

lemma pctNum_nan_left (d : NumV) : pctNum NumV.nan d = NumV.nan := by
  cases d <;> rfl

lemma pctNum_zero_den (x d : Frac) (hd : d.num = 0) (hx : 0 < x.num) :
    pctNum (NumV.real x) (NumV.real d) = NumV.posInf := by
  simp [pctNum, numDiv, numMul100, round2, hd, hx]

lemma pctNum_pos_den (x d : Frac) (hx : 0 < x.den) (hd : 0 < d.den)
    (hdv : 0 < d.toRat) :
    pctNum (NumV.real x) (NumV.real d) =
      NumV.real ⟨froundHE (fracMul100 (fracMul100 (fracDiv x d))), 100⟩ ∧
    (⟨froundHE (fracMul100 (fracMul100 (fracDiv x d))), 100⟩ : Frac).toRat =
      round2Rat (x.toRat / d.toRat * 100) := by
  have hdn : 0 < d.num := by
    have h2 := hdv
    unfold Frac.toRat at h2
    rcases div_pos_iff.mp h2 with ⟨ha, _⟩ | ⟨_, hb⟩
    · exact_mod_cast ha
    · exfalso
      have : (0 : ℚ) < (d.den : ℚ) := by exact_mod_cast hd
      linarith
  have h0 : ¬ d.num = 0 := by omega
  constructor
  · simp [pctNum, numDiv, numMul100, round2, h0]
  · have hdd : 0 < (fracDiv x d).den := fracDiv_den_pos x d hx h0
    have h1 : (fracDiv x d).toRat = x.toRat / d.toRat := toRat_fracDiv x d hx hd h0
    have hm2 : 0 < (fracMul100 (fracMul100 (fracDiv x d))).den := hdd
    have h3 := froundHE_eq (fracMul100 (fracMul100 (fracDiv x d))) hm2
    have h4 : (fracMul100 (fracMul100 (fracDiv x d))).toRat =
        x.toRat / d.toRat * 100 * 100 := by
      rw [toRat_fracMul100, toRat_fracMul100, h1]
    show ((froundHE (fracMul100 (fracMul100 (fracDiv x d))) : ℤ) : ℚ) /
        ((100 : ℤ) : ℚ) = round2Rat (x.toRat / d.toRat * 100)
    rw [h3, h4]
    unfold round2Rat
    norm_num

lemma runAttempts_all_timeout (att : Nat → Outcome)
    (ht : ∀ i, att i = Outcome.timeout) :
    ∀ r total, 1 ≤ r → r ≤ total →
      runAttempts att total r =
        ⟨none, r, List.replicate (r - 1) Event.retryWarning ++ [Event.timeoutError]⟩ := by
  intro r
  induction r with
  | zero =>
    intro total h1 _
    omega
  | succ s ih =>
    intro total _ hle
    cases s with
    | zero =>
      simp [runAttempts, ht]
    | succ k =>
      have hne : ¬ (total - (k + 1 + 1) = total - 1) := by omega
      have hstep : runAttempts att total (k + 1 + 1) =
          ⟨(runAttempts att total (k + 1)).result,
           (runAttempts att total (k + 1)).calls + 1,
           Event.retryWarning :: (runAttempts att total (k + 1)).events⟩ := by
        conv_lhs => rw [runAttempts]
        simp only [ht, if_neg hne]
      rw [hstep, ih total (by omega) (by omega)]
      simp [List.replicate_succ]

lemma runAttempts_calls_pos (att : Nat → Outcome) (total r : Nat) (hr : 1 ≤ r) :
    1 ≤ (runAttempts att total r).calls := by
  cases r with
  | zero => omega
  | succ s =>
    simp only [runAttempts]
    cases h : att (total - (s + 1)) with
    | ok p => simp
    | timeout =>
      simp only []
      split <;> simp
    | requestError => simp
    | otherError => simp

/-! ### Claim theorems -/

/-- Claim C1: with `retry_attempts = n ≥ 1` and every GET attempt raising
a timeout, `make_census_request` performs exactly `n` GET calls — never
more, never fewer — emitting `n - 1` retry warnings followed by the
terminal timeout error (a failure kind distinct from the connection-error
and unexpected-error kinds), and returns `None`. -/
theorem claim_C1 (att : Nat → Outcome) (n : Nat) (hn : 1 ≤ n)
    (ht : ∀ i, att i = Outcome.timeout) :
    make_census_request att n =
      ⟨none, n, List.replicate (n - 1) Event.retryWarning ++ [Event.timeoutError]⟩ ∧
    Event.timeoutError ≠ Event.connectionError ∧
    Event.timeoutError ≠ Event.unexpectedError :=
  ⟨runAttempts_all_timeout att ht n n hn (le_refl n), by decide, by decide⟩

/-- Witness for claim C1 at `retry_attempts = 3`. -/
theorem claim_C1_witness :
    make_census_request (fun _ => Outcome.timeout) 3 =
      ⟨none, 3, List.replicate 2 Event.retryWarning ++ [Event.timeoutError]⟩ ∧
    Event.timeoutError ≠ Event.connectionError ∧
    Event.timeoutError ≠ Event.unexpectedError :=
  claim_C1 (fun _ => Outcome.timeout) 3 (by decide) (fun _ => rfl)

/-- Claim C4 counterexample: with `retry_attempts = 0` the loop body never
runs — the fetcher performs zero GET calls and returns `None`; nothing
validates the value or clamps it to 1. -/
theorem claim_C4_counterexample :
    (make_census_request (fun _ => Outcome.requestError) 0).calls = 0 ∧
    (make_census_request (fun _ => Outcome.requestError) 0).result = none := by
  decide

/-- Claim C4 (amended): `retry_attempts = 0` is neither rejected nor
clamped — `for attempt in range(0)` performs zero GET attempts and the
function falls through to `return None` with no error event.  At least
one attempt occurs exactly when `retry_attempts ≥ 1`. -/
theorem claim_C4 :
    (∀ att, make_census_request att 0 = ⟨none, 0, []⟩) ∧
    (∀ (att : Nat → Outcome) (n : Nat), 1 ≤ n →
      1 ≤ (make_census_request att n).calls) :=
  ⟨fun _ => rfl, fun att n hn => runAttempts_calls_pos att n n hn⟩

/-- Witness for the amended claim C4. -/
theorem claim_C4_witness :
    make_census_request (fun _ => Outcome.timeout) 0 = ⟨none, 0, []⟩ ∧
    1 ≤ (make_census_request (fun _ => Outcome.timeout) 1).calls :=
  ⟨claim_C4.1 _, claim_C4.2 _ 1 (by decide)⟩

/-- Claim C5: an absent fetch result (`None`) or a payload with fewer than
2 rows makes `load_census_data` report the load error and return the
empty DataFrame — the processing block that would build a normalized
table is never entered. -/
theorem claim_C5 (fetched : Option (List (List RawCell)))
    (h : fetched = none ∨ ∃ d, fetched = some d ∧ d.length < 2) :
    load_census_data fetched =
      (emptyDF, ["❌ No se pudieron cargar los datos del Census API"]) := by
  rcases h with rfl | ⟨d, rfl, hd⟩
  · rfl
  · simp only [load_census_data]
    rw [if_pos hd]

/-- Witness for claim C5: the empty payload. -/
theorem claim_C5_witness :
    load_census_data (some []) =
      (emptyDF, ["❌ No se pudieron cargar los datos del Census API"]) :=
  claim_C5 (some []) (Or.inr ⟨[], rfl, by decide⟩)

/-- Claim C8: every pipeline failure — absent fetch result, payload with
fewer than 2 rows, or an exception raised inside the processing block —
yields the empty DataFrame plus a nonempty human-readable error report;
`load_census_data` is total, so no exception propagates to the caller. -/
theorem claim_C8 (fetched : Option (List (List RawCell)))
    (h : fetched = none ∨ (∃ d, fetched = some d ∧ d.length < 2) ∨
         (∃ d e, fetched = some d ∧ processCensus d = Except.error e)) :
    (load_census_data fetched).1 = emptyDF ∧ (load_census_data fetched).2 ≠ [] := by
  rcases h with rfl | ⟨d, rfl, hd⟩ | ⟨d, e, rfl, he⟩
  · exact ⟨rfl, by decide⟩
  · simp only [load_census_data]
    rw [if_pos hd]
    exact ⟨rfl, by simp⟩
  · simp only [load_census_data]
    by_cases hd : d.length < 2
    · rw [if_pos hd]
      exact ⟨rfl, by simp⟩
    · rw [if_neg hd, he]
      exact ⟨rfl, by simp⟩

/-- Witness for claim C8: the absent fetch result. -/
theorem claim_C8_witness :
    (load_census_data none).1 = emptyDF ∧ (load_census_data none).2 ≠ [] :=
  claim_C8 none (Or.inl rfl)

/-- Claim C9 counterexample: the first access fails (every attempt times
out), `load_census_data` returns the empty table and `st.cache_data`
stores it; the next access performs zero GET calls and returns the pinned
empty table instead of recomputing. -/
theorem claim_C9_counterexample :
    (cachedLoad none (fun _ => Outcome.timeout) 3).fetchCalls = 3 ∧
    (cachedLoad none (fun _ => Outcome.timeout) 3).table = emptyDF ∧
    (cachedLoad (cachedLoad none (fun _ => Outcome.timeout) 3).cacheAfter
      (fun _ => Outcome.timeout) 3).fetchCalls = 0 ∧
    (cachedLoad (cachedLoad none (fun _ => Outcome.timeout) 3).cacheAfter
      (fun _ => Outcome.timeout) 3).table = emptyDF := by
  decide

/-- Claim C9 (amended): `@st.cache_data` memoizes whatever DataFrame
`load_census_data` returns.  When the fetch fails, the empty table is
stored in the cache, and any subsequent access within the TTL returns the
pinned empty table with zero GET calls rather than re-fetching. -/
theorem claim_C9 (att : Nat → Outcome) (n : Nat)
    (hfail : (make_census_request att n).result = none) :
    (cachedLoad none att n).table = emptyDF ∧
    (cachedLoad none att n).cacheAfter = some emptyDF ∧
    ∀ (att2 : Nat → Outcome) (n2 : Nat),
      cachedLoad (cachedLoad none att n).cacheAfter att2 n2 =
        ⟨emptyDF, some emptyDF, 0⟩ := by
  have h1 : cachedLoad none att n =
      ⟨emptyDF, some emptyDF, (make_census_request att n).calls⟩ := by
    unfold cachedLoad
    rw [hfail]
    rfl
  rw [h1]
  exact ⟨rfl, rfl, fun att2 n2 => rfl⟩

/-- Witness for the amended claim C9. -/
theorem claim_C9_witness :
    (cachedLoad none (fun _ => Outcome.timeout) 1).table = emptyDF ∧
    (cachedLoad none (fun _ => Outcome.timeout) 1).cacheAfter = some emptyDF ∧
    ∀ (att2 : Nat → Outcome) (n2 : Nat),
      cachedLoad (cachedLoad none (fun _ => Outcome.timeout) 1).cacheAfter att2 n2 =
        ⟨emptyDF, some emptyDF, 0⟩ :=
  claim_C9 (fun _ => Outcome.timeout) 1 rfl

/-- Claim C6 counterexample: on the claim's 2-column raw input the
pipeline does not return a 2-row table — the returned table is empty and
an error is reported. -/
theorem claim_C6_counterexample :
    (load_census_data (some c6pay)).1.rows.length ≠ 2 ∧
    (load_census_data (some c6pay)).2 ≠ [] := by
  decide

/-- Claim C6 (amended): on that raw input the derived-percentage step
raises `KeyError: Blancos` (the hardcoded demographic columns are absent
from a 2-column payload), so `load_census_data` reports a processing
error and returns the empty DataFrame.  Note also that with two columns
`headers[1:-1]` is empty, so no numeric coercion would have occurred. -/
theorem claim_C6 :
    load_census_data (some c6pay) =
      (emptyDF, ["❌ Error procesando datos: KeyError: Blancos"]) ∧
    censusNumericCols (censusHeaders c6pay) = [] := by
  decide

/-- Claim C2 (code bug): `dropna(subset=...)` uses pandas' default
`how="any"`, so the Alaska row is dropped because one single
non-identifier column is missing, although the row holds valid numeric
values in the other non-identifier columns (e.g. population 733391) —
contradicting the code's own comment ("Remove any rows with all NaN
values") and the claim that a row is dropped only when every
non-identifier column is missing. -/
theorem claim_C2 :
    (processCensus c2pay).toOption.map
        (fun df => df.rows.map (fun r => r.getD 0 cdef)) =
      some [Cell.obj (some "Alabama")] ∧
    rawToNum (c2rowB.getD 1 none) = NumV.real ⟨733391, 1⟩ ∧
    rawToNum (c2rowB.getD 2 none) = NumV.nan := by
  decide

/-- Claim C3 counterexample: with a zero denominator and a positive
numerator the derived `% Blancos` cell is `+inf` — and an infinity does
not count as missing — refuting "marked missing whenever the denominator
is zero". -/
theorem claim_C3_counterexample :
    (processCensus c3cexpay).toOption.map
        (fun df => (df.rows.getD 0 []).getD 12 cdef) =
      some (Cell.num NumV.posInf) ∧
    (Cell.num NumV.posInf).isNA = false := by
  decide

/-- Claim C3 (amended): on well-formed standard payloads every surviving
row carries the five derived cells `(X / denominator * 100).round(2)`
(columns 12-16, computed by `pctNum` from the row's own cells), and the
denominators (`Población Total`, `Total Viviendas`) of surviving rows are
never missing.  When the denominator is a positive number the derived
value is the half-to-even rounding of `X / denominator * 100` at two
decimals; when the denominator is missing the value is missing; but when
the denominator is zero with a positive numerator the value is `+inf`,
not a missing marker. -/
theorem claim_C3 (rows : List (List RawCell)) (hlen : ∀ r ∈ rows, r.length = 12) :
    (processCensus (stdHeaderRow :: rows) =
      Except.ok ⟨finalHeaders, sortStd (outRows rows)⟩) ∧
    (∀ out ∈ sortStd (outRows rows),
      (out.getD 12 cdef =
          Cell.num (pctNum (cellNum (out.getD 3 cdef)) (cellNum (out.getD 1 cdef))) ∧
       out.getD 13 cdef =
          Cell.num (pctNum (cellNum (out.getD 4 cdef)) (cellNum (out.getD 1 cdef))) ∧
       out.getD 14 cdef =
          Cell.num (pctNum (cellNum (out.getD 5 cdef)) (cellNum (out.getD 1 cdef))) ∧
       out.getD 15 cdef =
          Cell.num (pctNum (cellNum (out.getD 6 cdef)) (cellNum (out.getD 1 cdef))) ∧
       out.getD 16 cdef =
          Cell.num (pctNum (cellNum (out.getD 8 cdef)) (cellNum (out.getD 7 cdef)))) ∧
      cellNum (out.getD 1 cdef) ≠ NumV.nan ∧
      cellNum (out.getD 7 cdef) ≠ NumV.nan) ∧
    (∀ x d : Frac, 0 < x.den → 0 < d.den → 0 < d.toRat →
      ∃ p : Frac, pctNum (NumV.real x) (NumV.real d) = NumV.real p ∧
        p.toRat = round2Rat (x.toRat / d.toRat * 100)) ∧
    (∀ v : NumV, pctNum v NumV.nan = NumV.nan) ∧
    (∀ x d : Frac, d.num = 0 → 0 < x.num →
      pctNum (NumV.real x) (NumV.real d) = NumV.posInf) := by
  refine ⟨processCensus_std rows hlen, ?_, ?_, pctNum_nan_right, ?_⟩
  · intro out hout
    obtain ⟨o0, o1, o2, o3, o4, o5, o6, o7, o8, o9, o10, o11, rfl, hkeep⟩ :=
      out_shape rows hlen out hout
    have hf := keepStd_fields _ _ _ _ _ _ _ _ _ _ _ _ hkeep
    refine ⟨⟨rfl, rfl, rfl, rfl, rfl⟩, ?_, ?_⟩
    · exact (isNA_num_iff _).mp hf.1
    · exact (isNA_num_iff _).mp hf.2.2.2.2.2.2.1
  · intro x d hx hd hdv
    obtain ⟨he, hv⟩ := pctNum_pos_den x d hx hd hdv
    exact ⟨_, he, hv⟩
  · intro x d hd hx
    exact pctNum_zero_den x d hd hx

/-- Witness for the amended claim C3 at a one-row payload. -/
theorem claim_C3_witness :
    (processCensus (stdHeaderRow :: [c3wrow]) =
      Except.ok ⟨finalHeaders, sortStd (outRows [c3wrow])⟩) ∧
    (∀ out ∈ sortStd (outRows [c3wrow]),
      (out.getD 12 cdef =
          Cell.num (pctNum (cellNum (out.getD 3 cdef)) (cellNum (out.getD 1 cdef))) ∧
       out.getD 13 cdef =
          Cell.num (pctNum (cellNum (out.getD 4 cdef)) (cellNum (out.getD 1 cdef))) ∧
       out.getD 14 cdef =
          Cell.num (pctNum (cellNum (out.getD 5 cdef)) (cellNum (out.getD 1 cdef))) ∧
       out.getD 15 cdef =
          Cell.num (pctNum (cellNum (out.getD 6 cdef)) (cellNum (out.getD 1 cdef))) ∧
       out.getD 16 cdef =
          Cell.num (pctNum (cellNum (out.getD 8 cdef)) (cellNum (out.getD 7 cdef)))) ∧
      cellNum (out.getD 1 cdef) ≠ NumV.nan ∧
      cellNum (out.getD 7 cdef) ≠ NumV.nan) ∧
    (∀ x d : Frac, 0 < x.den → 0 < d.den → 0 < d.toRat →
      ∃ p : Frac, pctNum (NumV.real x) (NumV.real d) = NumV.real p ∧
        p.toRat = round2Rat (x.toRat / d.toRat * 100)) ∧
    (∀ v : NumV, pctNum v NumV.nan = NumV.nan) ∧
    (∀ x d : Frac, d.num = 0 → 0 < x.num →
      pctNum (NumV.real x) (NumV.real d) = NumV.posInf) :=
  claim_C3 [c3wrow] (by decide)

/-- Claim C7 counterexample: with a subgroup value (25001) strictly above
a positive population total (25000), the stored `% Blancos` cell is
exactly 100 — the true ratio 100.004 rounds down at two decimals — so the
derived column does not hold a value strictly greater than 100. -/
theorem claim_C7_counterexample :
    (processCensus c7cexpay).toOption.map
        (fun df => (df.rows.getD 0 []).getD 12 cdef) =
      some (Cell.num (NumV.real ⟨10000, 100⟩)) ∧
    (⟨10000, 100⟩ : Frac).toRat = 100 ∧
    (⟨25000, 1⟩ : Frac).toRat < (⟨25001, 1⟩ : Frac).toRat := by
  refine ⟨by decide, by norm_num [Frac.toRat], by norm_num [Frac.toRat]⟩

/-- Claim C7 (amended): when a demographic subgroup value strictly
exceeds a positive population total, the derived percentage cell holds a
finite value that is at least 100 — the computation neither clamps nor
raises, and values above 100 do occur (e.g. `3/2` gives 150.00) — but
rounding half-to-even at two decimals can bring a ratio slightly above
100 down to exactly 100, so "strictly greater" does not hold. -/
theorem claim_C7 (rows : List (List RawCell)) (hlen : ∀ r ∈ rows, r.length = 12) :
    (processCensus (stdHeaderRow :: rows) =
      Except.ok ⟨finalHeaders, sortStd (outRows rows)⟩) ∧
    (∀ out ∈ sortStd (outRows rows), ∀ x d : Frac,
      cellNum (out.getD 1 cdef) = NumV.real d → 0 < d.toRat →
      ((cellNum (out.getD 3 cdef) = NumV.real x → d.toRat < x.toRat →
        ∃ p : Frac, out.getD 12 cdef = Cell.num (NumV.real p) ∧ 100 ≤ p.toRat) ∧
       (cellNum (out.getD 4 cdef) = NumV.real x → d.toRat < x.toRat →
        ∃ p : Frac, out.getD 13 cdef = Cell.num (NumV.real p) ∧ 100 ≤ p.toRat) ∧
       (cellNum (out.getD 5 cdef) = NumV.real x → d.toRat < x.toRat →
        ∃ p : Frac, out.getD 14 cdef = Cell.num (NumV.real p) ∧ 100 ≤ p.toRat) ∧
       (cellNum (out.getD 6 cdef) = NumV.real x → d.toRat < x.toRat →
        ∃ p : Frac, out.getD 15 cdef = Cell.num (NumV.real p) ∧ 100 ≤ p.toRat))) ∧
    (pctNum (NumV.real ⟨3, 1⟩) (NumV.real ⟨2, 1⟩) = NumV.real ⟨15000, 100⟩ ∧
     (⟨15000, 100⟩ : Frac).toRat = 150) := by
  refine ⟨processCensus_std rows hlen, ?_, by decide, by norm_num [Frac.toRat]⟩
  intro out hout x d hd1 hdpos
  obtain ⟨o0, o1, o2, o3, o4, o5, o6, o7, o8, o9, o10, o11, rfl, _⟩ :=
    out_shape rows hlen out hout
  have hdeq : rawToNum o1 = NumV.real d := hd1
  have hdden := rawToNum_den_pos o1 d hdeq
  have key : ∀ (oj : RawCell) (y : Frac), rawToNum oj = NumV.real y →
      d.toRat < y.toRat →
      ∃ p : Frac, pctNum (rawToNum oj) (rawToNum o1) = NumV.real p ∧
        100 ≤ p.toRat := by
    intro oj y hx hlt2
    have hyden := rawToNum_den_pos oj y hx
    rw [hx, hdeq]
    obtain ⟨he, hv⟩ := pctNum_pos_den y d hyden hdden hdpos
    refine ⟨_, he, ?_⟩
    rw [hv]
    have hrat : 1 < y.toRat / d.toRat := (one_lt_div hdpos).mpr hlt2
    have hq : (10000 : ℚ) < y.toRat / d.toRat * 100 * 100 := by nlinarith
    have hfl : (10000 : ℤ) ≤ ⌊y.toRat / d.toRat * 100 * 100⌋ :=
      Int.le_floor.mpr (by exact_mod_cast hq.le)
    have hge : (10000 : ℤ) ≤ roundHE (y.toRat / d.toRat * 100 * 100) :=
      le_trans hfl (roundHE_ge_floor (y.toRat / d.toRat * 100 * 100))
    unfold round2Rat
    rw [le_div_iff₀ (by norm_num : (0 : ℚ) < 100)]
    have hc : (10000 : ℚ) ≤ (roundHE (y.toRat / d.toRat * 100 * 100) : ℚ) := by
      exact_mod_cast hge
    linarith
  refine ⟨?_, ?_, ?_, ?_⟩
  · intro hx hlt2
    obtain ⟨p, hp, hb⟩ := key o3 x hx hlt2
    refine ⟨p, ?_, hb⟩
    show Cell.num (pctNum (rawToNum o3) (rawToNum o1)) = Cell.num (NumV.real p)
    rw [hp]
  · intro hx hlt2
    obtain ⟨p, hp, hb⟩ := key o4 x hx hlt2
    refine ⟨p, ?_, hb⟩
    show Cell.num (pctNum (rawToNum o4) (rawToNum o1)) = Cell.num (NumV.real p)
    rw [hp]
  · intro hx hlt2
    obtain ⟨p, hp, hb⟩ := key o5 x hx hlt2
    refine ⟨p, ?_, hb⟩
    show Cell.num (pctNum (rawToNum o5) (rawToNum o1)) = Cell.num (NumV.real p)
    rw [hp]
  · intro hx hlt2
    obtain ⟨p, hp, hb⟩ := key o6 x hx hlt2
    refine ⟨p, ?_, hb⟩
    show Cell.num (pctNum (rawToNum o6) (rawToNum o1)) = Cell.num (NumV.real p)
    rw [hp]

/-- Witness for the amended claim C7 at a one-row payload. -/
theorem claim_C7_witness :
    (processCensus (stdHeaderRow :: [c7wrow]) =
      Except.ok ⟨finalHeaders, sortStd (outRows [c7wrow])⟩) ∧
    (∀ out ∈ sortStd (outRows [c7wrow]), ∀ x d : Frac,
      cellNum (out.getD 1 cdef) = NumV.real d → 0 < d.toRat →
      ((cellNum (out.getD 3 cdef) = NumV.real x → d.toRat < x.toRat →
        ∃ p : Frac, out.getD 12 cdef = Cell.num (NumV.real p) ∧ 100 ≤ p.toRat) ∧
       (cellNum (out.getD 4 cdef) = NumV.real x → d.toRat < x.toRat →
        ∃ p : Frac, out.getD 13 cdef = Cell.num (NumV.real p) ∧ 100 ≤ p.toRat) ∧
       (cellNum (out.getD 5 cdef) = NumV.real x → d.toRat < x.toRat →
        ∃ p : Frac, out.getD 14 cdef = Cell.num (NumV.real p) ∧ 100 ≤ p.toRat) ∧
       (cellNum (out.getD 6 cdef) = NumV.real x → d.toRat < x.toRat →
        ∃ p : Frac, out.getD 15 cdef = Cell.num (NumV.real p) ∧ 100 ≤ p.toRat))) ∧
    (pctNum (NumV.real ⟨3, 1⟩) (NumV.real ⟨2, 1⟩) = NumV.real ⟨15000, 100⟩ ∧
     (⟨15000, 100⟩ : Frac).toRat = 150) :=
  claim_C7 [c7wrow] (by decide)

/-- Claim C10: on well-formed standard payloads the last positional raw
column (`state`, the geographic FIPS code) is retained in the normalized
table: it is still an object (string) cell at position 11 — excluded from
the numeric coercion — its name is a column of the output, it belongs to
the dropna subset (so it participates in the missing-row filter), and
every surviving row therefore carries a present `state` string. -/
theorem claim_C10 (rows : List (List RawCell)) (hlen : ∀ r ∈ rows, r.length = 12) :
    (processCensus (stdHeaderRow :: rows) =
      Except.ok ⟨finalHeaders, sortStd (outRows rows)⟩) ∧
    finalHeaders.getD 11 "" = "state" ∧
    "state" ∈ subsetStd ∧
    censusNumericCols stdHeaders = numericColsStd ∧
    "state" ∉ numericColsStd ∧
    (∀ out ∈ sortStd (outRows rows), ∃ s : String,
      out.getD 11 cdef = Cell.obj (some s)) := by
  refine ⟨processCensus_std rows hlen, by decide, by decide, by decide, by decide, ?_⟩
  intro out hout
  obtain ⟨o0, o1, o2, o3, o4, o5, o6, o7, o8, o9, o10, o11, rfl, hkeep⟩ :=
    out_shape rows hlen out hout
  have hf := keepStd_fields _ _ _ _ _ _ _ _ _ _ _ _ hkeep
  have h11 : (Cell.obj o11).isNA = false := hf.2.2.2.2.2.2.2.2.2.2
  obtain ⟨s, hs⟩ := Option.ne_none_iff_exists'.mp ((isNA_obj_iff o11).mp h11)
  refine ⟨s, ?_⟩
  show Cell.obj o11 = Cell.obj (some s)
  rw [hs]

/-- Witness for claim C10 at a one-row payload. -/
theorem claim_C10_witness :
    (processCensus (stdHeaderRow :: [c10wrow]) =
      Except.ok ⟨finalHeaders, sortStd (outRows [c10wrow])⟩) ∧
    finalHeaders.getD 11 "" = "state" ∧
    "state" ∈ subsetStd ∧
    censusNumericCols stdHeaders = numericColsStd ∧
    "state" ∉ numericColsStd ∧
    (∀ out ∈ sortStd (outRows [c10wrow]), ∃ s : String,
      out.getD 11 cdef = Cell.obj (some s)) :=
  claim_C10 [c10wrow] (by decide)
